import Mathlib

/-!
Shallow embedding of `addressesfrpy` (src/addressesfrpy/api.py), a thin
asynchronous client for the French address geocoding API.  We model the
decoded JSON values handled by the client, the response validator
`AddressFr._check_response`, and the two operations `async_search` and
`async_reverse` with the request layer abstracted as a function argument.
-/

set_option autoImplicit false

/-- A decoded JSON / Python value as handled by the client.  Dictionaries are
modelled as association lists (Python dicts preserve insertion order and have
pairwise-distinct keys; where distinctness matters a theorem assumes it). -/
inductive PyVal where
  | none
  | bool (b : Bool)
  | int (n : Int)
  | str (s : String)
  | list (xs : List PyVal)
  | dict (es : List (String × PyVal))
deriving Repr

namespace PyVal

/-- Python truthiness (`bool(v)`): `None`, `False`, `0`, `""`, `[]`, `\x7b\x7d`
are falsy, everything else is truthy. -/
def truthy : PyVal → Bool
  | .none => false
  | .bool b => b
  | .int n => n != 0
  | .str s => !(s == "")
  | .list xs => !xs.isEmpty
  | .dict es => !es.isEmpty

/-- `isinstance(v, dict)`. -/
def isDict : PyVal → Bool
  | .dict _ => true
  | _ => false

end PyVal

/-- Key membership in an association list (`k in d` for a Python dict). -/
def hasKeyL : List (String × PyVal) → String → Bool
  | [], _ => false
  | p :: rest, k => if p.1 = k then true else hasKeyL rest k

/-- Key lookup in an association list (`d[k]` for a Python dict): the value of
the first entry with the given key. -/
def lookupKey : List (String × PyVal) → String → Option PyVal
  | [], _ => Option.none
  | p :: rest, k => if p.1 = k then some p.2 else lookupKey rest k

namespace PyVal

/-- `k in v` for a dict (`False` on non-dicts; the code only uses it after an
`isinstance` check). -/
def hasKey (v : PyVal) (k : String) : Bool :=
  match v with
  | .dict es => hasKeyL es k
  | _ => false

/-- `v[k]` for a dict; the code only subscripts after a membership check, so
the `.none` default is never reached on the modelled paths. -/
def getKey (v : PyVal) (k : String) : PyVal :=
  match v with
  | .dict es =>
    match lookupKey es k with
    | some w => w
    | _ => .none
  | _ => .none

end PyVal

mutual
/-- Python `repr(v)` (string escaping elided: plain quoting). -/
def PyVal.pyRepr : PyVal → String
  | .none => "None"
  | .bool true => "True"
  | .bool false => "False"
  | .int n => toString n
  | .str s => "\x27" ++ s ++ "\x27"
  | .list xs => "[" ++ pyReprList xs ++ "]"
  | .dict es => "\x7b" ++ pyReprDict es ++ "\x7d"

/-- Comma-separated `repr` of list elements. -/
def pyReprList : List PyVal → String
  | [] => ""
  | [x] => x.pyRepr
  | x :: xs => x.pyRepr ++ ", " ++ pyReprList xs

/-- Comma-separated `repr` of dict entries. -/
def pyReprDict : List (String × PyVal) → String
  | [] => ""
  | [(k, v)] => "\x27" ++ k ++ "\x27: " ++ v.pyRepr
  | (k, v) :: es => "\x27" ++ k ++ "\x27: " ++ v.pyRepr ++ ", " ++ pyReprDict es
end

/-- Python `str(v)`, as used by the f-string in `_check_response`. -/
def PyVal.pyStr : PyVal → String
  | .str s => s
  | v => v.pyRepr

/-- Outcome of `AddressFr._check_response`: a returned value, one of the two
typed exceptions (`AddressNotFound` / `AddressFrException`) with its message,
or the implicit `None` returned when control falls off the end. -/
inductive CheckResult where
  | ok (v : PyVal)
  | addressNotFound (msg : String)
  | addressFrException (msg : String)
  | implicitNone
deriving Repr

/-- `AddressFr._check_response` (src/addressesfrpy/api.py lines 111-123),
branch for branch. -/
def _check_response (response : PyVal) : CheckResult :=
  if response.truthy && response.isDict && response.hasKey "features" then
    let r := response.getKey "features"
    if !r.truthy then
      .addressNotFound "No addresses found for the given query."
    else
      .ok r
  else if !response.truthy || !response.isDict then
    .addressFrException "Invalid response from address service."
  else if response.hasKey "error" then
    .addressFrException ("Error in response: " ++ (response.getKey "error").pyStr)
  else if !(response.hasKey "features") || !(response.getKey "features").truthy then
    .addressFrException "No features found in the response."
  else
    .implicitNone

/-- Modelled from the spec: the constant `API_BASE_URL` lives in
`addressesfrpy/consts.py`, which is not part of the client module itself; the
spec refers to it only as the placeholder base URL of the remote service. -/
def API_BASE_URL : String := "https://data.geopf.fr/geocodage"

/-- Inserting `k ↦ v` into a Python dict under construction: an existing key
keeps its position and gets the new value, a new key is appended. -/
def dictInsert (es : List (String × PyVal)) (k : String) (v : PyVal) :
    List (String × PyVal) :=
  if hasKeyL es k then
    es.map (fun p => if p.1 = k then (k, v) else p)
  else
    es ++ [(k, v)]

/-- A Python dict literal built from the given key/value pairs in order
(later occurrences of a key override earlier ones in place), as in
`\x7b"q": query, "limit": limit, **kwargs\x7d`. -/
def buildDict (pairs : List (String × PyVal)) : List (String × PyVal) :=
  pairs.foldl (fun acc p => dictInsert acc p.1 p.2) []

/-- An outbound HTTP GET request: path and query parameters, as handed to
`HTTPRequest.async_request`. -/
structure Request where
  path : String
  params : List (String × PyVal)
deriving Repr

/-- What the request layer (`async_request`, an external collaborator) does
for one call: return a decoded body, or raise `HttpRequestError`. -/
inductive RequestOutcome where
  | success (body : PyVal)
  | httpError (err : String)

/-- Outcome of `async_search` / `async_reverse`: a returned value, a raised
exception with its message (`AddressNotFound` also records the chained cause,
`raise ... from error`), or the implicit `None` fall-through. -/
inductive OpResult where
  | ok (v : PyVal)
  | addressNotFound (msg : String) (cause : Option String)
  | addressFrException (msg : String)
  | implicitNone
deriving Repr

/-- Lift a `_check_response` outcome to an operation outcome (the validator
raises `AddressNotFound` without a chained cause). -/
def liftCheck : CheckResult → OpResult
  | .ok v => .ok v
  | .addressNotFound m => .addressNotFound m Option.none
  | .addressFrException m => .addressFrException m
  | .implicitNone => .implicitNone

/-- The request issued by `async_search`: GET `API_BASE_URL + "/search"` with
params `\x7b"q": query, "limit": limit, **kwargs\x7d`. -/
def search_request (query : String) (limit : Int)
    (kwargs : List (String × PyVal)) : Request :=
  ⟨API_BASE_URL ++ "/search",
   buildDict (("q", PyVal.str query) :: ("limit", PyVal.int limit) :: kwargs)⟩

/-- The request issued by `async_reverse`: GET `API_BASE_URL + "/reverse"`
with params `\x7b**kwargs\x7d`. -/
def reverse_request (kwargs : List (String × PyVal)) : Request :=
  ⟨API_BASE_URL ++ "/reverse", buildDict kwargs⟩

/-- `AddressFr.async_search` (api.py lines 53-66), with the request layer
passed in as `rl`.  In the source `limit` defaults to `10`.  A transport
error (`HttpRequestError`) is logged and re-raised as
`AddressNotFound("Address not found.") from error`; a body is passed to
`_check_response`. -/
def async_search (rl : Request → RequestOutcome) (query : String)
    (limit : Int) (kwargs : List (String × PyVal)) : OpResult :=
  match rl (search_request query limit kwargs) with
  | .httpError err => .addressNotFound "Address not found." (some err)
  | .success body => liftCheck (_check_response body)

/-- `AddressFr.async_reverse` (api.py lines 100-109), with the request layer
passed in as `rl`. -/
def async_reverse (rl : Request → RequestOutcome)
    (kwargs : List (String × PyVal)) : OpResult :=
  match rl (reverse_request kwargs) with
  | .httpError err => .addressNotFound "Address not found." (some err)
  | .success body => liftCheck (_check_response body)

/-!
Association-list lemmas used to settle the claims: lookup and membership
facts about `lookupKey`, `hasKeyL`, `dictInsert` and `buildDict`.
-/


theorem lookupKey_cons (p : String × PyVal) (rest : List (String × PyVal)) (k : String) :
    lookupKey (p :: rest) k = if p.1 = k then some p.2 else lookupKey rest k := by
  rw [lookupKey]

theorem hasKeyL_cons (p : String × PyVal) (rest : List (String × PyVal)) (k : String) :
    hasKeyL (p :: rest) k = if p.1 = k then true else hasKeyL rest k := by
  rw [hasKeyL]

theorem hasKeyL_of_lookup {es : List (String × PyVal)} {k : String} {v : PyVal}
    (h : lookupKey es k = some v) : hasKeyL es k = true := by
  induction es with
  | nil => simp [lookupKey] at h
  | cons p rest ih =>
    rw [lookupKey_cons] at h
    rw [hasKeyL_cons]
    by_cases hk : p.1 = k
    · rw [if_pos hk]
    · rw [if_neg hk] at h
      rw [if_neg hk]
      exact ih h

theorem ne_nil_of_hasKeyL {es : List (String × PyVal)} {k : String}
    (h : hasKeyL es k = true) : es ≠ [] := by
  rintro rfl
  simp [hasKeyL] at h

theorem lookup_of_hasKeyL_false {es : List (String × PyVal)} {k : String}
    (h : hasKeyL es k = false) : lookupKey es k = Option.none := by
  induction es with
  | nil => rfl
  | cons p rest ih =>
    rw [hasKeyL_cons] at h
    rw [lookupKey_cons]
    by_cases hk : p.1 = k
    · rw [if_pos hk] at h
      exact absurd h (by simp)
    · rw [if_neg hk] at h
      rw [if_neg hk]
      exact ih h

theorem lookup_map_update_ne {es : List (String × PyVal)} {k k2 : String} {v : PyVal}
    (h : k ≠ k2) :
    lookupKey (es.map (fun p => if p.1 = k2 then (k2, v) else p)) k
      = lookupKey es k := by
  induction es with
  | nil => rfl
  | cons p rest ih =>
    rw [List.map_cons, lookupKey_cons, lookupKey_cons]
    by_cases h0 : p.1 = k2
    · rw [if_pos h0]
      have h1 : ((k2, v) : String × PyVal).1 ≠ k := fun he => h he.symm
      have h2 : ¬(p.1 = k) := fun he => h (h0.symm.trans he).symm
      rw [if_neg h1, if_neg h2]
      exact ih
    · rw [if_neg h0]
      by_cases hk : p.1 = k
      · rw [if_pos hk, if_pos hk]
      · rw [if_neg hk, if_neg hk]
        exact ih

theorem lookup_append_single_ne {es : List (String × PyVal)} {k k2 : String} {v : PyVal}
    (h : k ≠ k2) :
    lookupKey (es ++ [(k2, v)]) k = lookupKey es k := by
  induction es with
  | nil =>
    rw [List.nil_append, lookupKey_cons]
    exact if_neg (fun he : ((k2, v) : String × PyVal).1 = k => h he.symm)
  | cons p rest ih =>
    rw [List.cons_append, lookupKey_cons, lookupKey_cons]
    by_cases hk : p.1 = k
    · rw [if_pos hk, if_pos hk]
    · rw [if_neg hk, if_neg hk]
      exact ih

theorem lookup_dictInsert_ne {es : List (String × PyVal)} {k k2 : String} {v : PyVal}
    (h : k ≠ k2) : lookupKey (dictInsert es k2 v) k = lookupKey es k := by
  unfold dictInsert
  split
  · exact lookup_map_update_ne h
  · exact lookup_append_single_ne h

theorem lookup_map_update_self {es : List (String × PyVal)} {k : String} {v : PyVal}
    (h : hasKeyL es k = true) :
    lookupKey (es.map (fun p => if p.1 = k then (k, v) else p)) k = some v := by
  induction es with
  | nil => simp [hasKeyL] at h
  | cons p rest ih =>
    rw [hasKeyL_cons] at h
    rw [List.map_cons, lookupKey_cons]
    by_cases h0 : p.1 = k
    · rw [if_pos h0, if_pos (show ((k, v) : String × PyVal).1 = k from rfl)]
    · rw [if_neg h0, if_neg h0]
      rw [if_neg h0] at h
      exact ih h

theorem lookup_dictInsert_self {es : List (String × PyVal)} {k : String} {v : PyVal} :
    lookupKey (dictInsert es k v) k = some v := by
  unfold dictInsert
  split
  · next h => exact lookup_map_update_self h
  · next h =>
    have hf : hasKeyL es k = false := by
      cases hfk : hasKeyL es k with
      | true => exact absurd hfk h
      | false => rfl
    clear h
    induction es with
    | nil =>
      rw [List.nil_append, lookupKey_cons]
      exact if_pos rfl
    | cons p rest ih =>
      rw [hasKeyL_cons] at hf
      rw [List.cons_append, lookupKey_cons]
      by_cases hk : p.1 = k
      · rw [if_pos hk] at hf
        exact absurd hf (by simp)
      · rw [if_neg hk] at hf
        rw [if_neg hk]
        exact ih hf

theorem hasKeyL_append (es ts : List (String × PyVal)) (k : String) :
    hasKeyL (es ++ ts) k = (hasKeyL es k || hasKeyL ts k) := by
  induction es with
  | nil => simp [hasKeyL]
  | cons p rest ih =>
    rw [List.cons_append, hasKeyL_cons, hasKeyL_cons]
    by_cases hk : p.1 = k
    · rw [if_pos hk, if_pos hk]
      simp
    · rw [if_neg hk, if_neg hk]
      exact ih

theorem lookup_foldl_not_mem {pairs : List (String × PyVal)} {k : String}
    (h : ∀ p ∈ pairs, p.1 ≠ k) (acc : List (String × PyVal)) :
    lookupKey (pairs.foldl (fun a p => dictInsert a p.1 p.2) acc) k
      = lookupKey acc k := by
  induction pairs generalizing acc with
  | nil => rfl
  | cons p rest ih =>
    rw [List.foldl_cons]
    rw [ih (fun q hq => h q (List.mem_cons_of_mem _ hq)) _]
    exact lookup_dictInsert_ne (h p (List.mem_cons_self _ _)).symm

theorem lookup_foldl_of_nodup {pairs : List (String × PyVal)} {k : String} {v : PyVal}
    (hnd : (pairs.map Prod.fst).Nodup)
    (hl : lookupKey pairs k = some v) (acc : List (String × PyVal)) :
    lookupKey (pairs.foldl (fun a p => dictInsert a p.1 p.2) acc) k = some v := by
  induction pairs generalizing acc with
  | nil => simp [lookupKey] at hl
  | cons p rest ih =>
    rw [List.map_cons, List.nodup_cons] at hnd
    rw [lookupKey_cons] at hl
    rw [List.foldl_cons]
    by_cases hk : p.1 = k
    · rw [if_pos hk] at hl
      have hv : p.2 = v := Option.some.inj hl
      have hnotin : ∀ q ∈ rest, q.1 ≠ k := by
        intro q hq he
        have hmem : q.1 ∈ rest.map Prod.fst := List.mem_map_of_mem Prod.fst hq
        rw [show p.1 = q.1 from hk.trans he.symm] at hnd
        exact hnd.1 hmem
      rw [lookup_foldl_not_mem hnotin]
      rw [hk, hv]
      exact lookup_dictInsert_self
    · rw [if_neg hk] at hl
      exact ih hnd.2 hl _

theorem foldl_insert_append (pairs : List (String × PyVal)) :
    ∀ acc, (pairs.map Prod.fst).Nodup →
    (∀ p ∈ pairs, hasKeyL acc p.1 = false) →
    pairs.foldl (fun a p => dictInsert a p.1 p.2) acc = acc ++ pairs := by
  induction pairs with
  | nil =>
    intro acc _ _
    simp
  | cons p rest ih =>
    intro acc hnd hdisj
    rw [List.map_cons, List.nodup_cons] at hnd
    rw [List.foldl_cons]
    have hacc : hasKeyL acc p.1 = false := hdisj p (List.mem_cons_self _ _)
    have hins : dictInsert acc p.1 p.2 = acc ++ [(p.1, p.2)] := by
      unfold dictInsert
      rw [hacc]
      simp
    rw [hins]
    rw [ih (acc ++ [(p.1, p.2)]) hnd.2 ?_]
    · simp
    · intro q hq
      have h1 : hasKeyL acc q.1 = false := hdisj q (List.mem_cons_of_mem _ hq)
      have h2 : p.1 ≠ q.1 := fun he => hnd.1 (he ▸ List.mem_map_of_mem Prod.fst hq)
      rw [hasKeyL_append, h1, hasKeyL_cons, if_neg h2]
      rfl

theorem buildDict_eq_of_nodup {pairs : List (String × PyVal)}
    (hnd : (pairs.map Prod.fst).Nodup) : buildDict pairs = pairs := by
  unfold buildDict
  rw [foldl_insert_append pairs [] hnd (fun p _ => rfl)]
  simp


/-!
The claims, one theorem each.
-/

/-- Claim C1: for every response body that is a non-empty mapping containing
the key `features` whose value is a non-empty sequence, `_check_response`
returns exactly that sequence, unmodified, regardless of any other keys
present in the body (including an `error` key). -/
theorem features_passthrough (es : List (String × PyVal)) (xs : List PyVal)
    (hl : lookupKey es "features" = some (PyVal.list xs)) (hne : xs ≠ []) :
    _check_response (PyVal.dict es) = CheckResult.ok (PyVal.list xs) := by
  have hany := hasKeyL_of_lookup hl
  have hne2 : es ≠ [] := ne_nil_of_hasKeyL hany
  unfold _check_response
  simp [PyVal.truthy, PyVal.isDict, PyVal.hasKey, PyVal.getKey, hany, hl,
    List.isEmpty_eq_false.mpr hne2, List.isEmpty_eq_false.mpr hne]

/-- Witness for C1: a body with both an `error` key and a one-element
`features` list; the list is returned unchanged. -/
theorem features_passthrough_witness : _check_response (PyVal.dict
    [("error", PyVal.str "ignored"),
     ("features", PyVal.list [PyVal.dict [("label", PyVal.str "Paris")]])])
    = CheckResult.ok (PyVal.list [PyVal.dict [("label", PyVal.str "Paris")]]) :=
  features_passthrough _ _ rfl (by simp)

/-- Claim C2: whenever the request layer raises a transport error
(`HttpRequestError`), `async_search` and `async_reverse` raise
`AddressNotFound` with the source's message, and the original transport error
is preserved as the chained cause; the outcome is exactly this error, never a
retried or swallowed call. -/
theorem transport_error_to_not_found (rl rl2 : Request → RequestOutcome)
    (query : String) (limit : Int) (kwargs kwargs2 : List (String × PyVal))
    (err err2 : String)
    (hs : rl (search_request query limit kwargs) = RequestOutcome.httpError err)
    (hr : rl2 (reverse_request kwargs2) = RequestOutcome.httpError err2) :
    async_search rl query limit kwargs
      = OpResult.addressNotFound "Address not found." (some err)
    ∧ async_reverse rl2 kwargs2
      = OpResult.addressNotFound "Address not found." (some err2) := by
  constructor
  · unfold async_search
    rw [hs]
  · unfold async_reverse
    rw [hr]

/-- Witness for C2 at concrete request layers that always fail. -/
theorem transport_error_to_not_found_witness :
    async_search (fun _ => RequestOutcome.httpError "timeout") "Paris" 10 []
      = OpResult.addressNotFound "Address not found." (some "timeout")
    ∧ async_reverse (fun _ => RequestOutcome.httpError "connection lost")
        [("lat", PyVal.int 48)]
      = OpResult.addressNotFound "Address not found." (some "connection lost") :=
  transport_error_to_not_found (fun _ => RequestOutcome.httpError "timeout")
    (fun _ => RequestOutcome.httpError "connection lost")
    "Paris" 10 [] [("lat", PyVal.int 48)] "timeout" "connection lost" rfl rfl

/-- Claim C3: for every response body that is a mapping containing the key
`features` whose value is an empty sequence, `_check_response` raises
`AddressNotFound`. -/
theorem empty_features_not_found (es : List (String × PyVal))
    (hl : lookupKey es "features" = some (PyVal.list [])) :
    _check_response (PyVal.dict es)
      = CheckResult.addressNotFound "No addresses found for the given query." := by
  have hany := hasKeyL_of_lookup hl
  have hne2 : es ≠ [] := ne_nil_of_hasKeyL hany
  unfold _check_response
  simp [PyVal.truthy, PyVal.isDict, PyVal.hasKey, PyVal.getKey, hany, hl,
    List.isEmpty_eq_false.mpr hne2]

/-- Witness for C3 at the body from the spec. -/
theorem empty_features_not_found_witness :
    _check_response (PyVal.dict [("features", PyVal.list [])])
      = CheckResult.addressNotFound "No addresses found for the given query." :=
  empty_features_not_found _ rfl

/-- Claim C4: `async_search` issues a GET to the `/search` endpoint whose
query parameters are exactly `q` mapped to the query, `limit` mapped to the
limit, followed by the provided keyword arguments with no renaming or
transformation; `async_reverse` issues a GET to the `/reverse` endpoint with
exactly the provided keyword arguments.  (Keyword arguments form a Python
dict, so their keys are pairwise distinct; the first conjunct assumes they do
not shadow `q` or `limit`, the shadowing case being claim C9.) -/
theorem request_params_exact (query : String) (limit : Int)
    (kwargs kwargs2 : List (String × PyVal))
    (hnd : (kwargs.map Prod.fst).Nodup)
    (hq : "q" ∉ kwargs.map Prod.fst)
    (hl : "limit" ∉ kwargs.map Prod.fst)
    (hnd2 : (kwargs2.map Prod.fst).Nodup) :
    search_request query limit kwargs
      = ⟨API_BASE_URL ++ "/search",
         ("q", PyVal.str query) :: ("limit", PyVal.int limit) :: kwargs⟩
    ∧ reverse_request kwargs2 = ⟨API_BASE_URL ++ "/reverse", kwargs2⟩ := by
  constructor
  · unfold search_request
    have hfull : (((("q", PyVal.str query) : String × PyVal)
        :: ("limit", PyVal.int limit) :: kwargs).map Prod.fst).Nodup := by
      simp only [List.map_cons, List.nodup_cons, List.mem_cons]
      refine ⟨?_, ?_, hnd⟩
      · rintro (h | h)
        · exact absurd h (by decide)
        · exact hq h
      · exact hl
    rw [buildDict_eq_of_nodup hfull]
  · unfold reverse_request
    rw [buildDict_eq_of_nodup hnd2]

/-- Witness for C4: a search with one filter parameter and a reverse lookup
with two coordinates. -/
theorem request_params_exact_witness :
    search_request "Paris" 10 [("postcode", PyVal.str "75004")]
      = ⟨API_BASE_URL ++ "/search",
         [("q", PyVal.str "Paris"), ("limit", PyVal.int 10),
          ("postcode", PyVal.str "75004")]⟩
    ∧ reverse_request [("lat", PyVal.int 48), ("lon", PyVal.int 2)]
      = ⟨API_BASE_URL ++ "/reverse", [("lat", PyVal.int 48), ("lon", PyVal.int 2)]⟩ :=
  request_params_exact "Paris" 10 [("postcode", PyVal.str "75004")]
    [("lat", PyVal.int 48), ("lon", PyVal.int 2)]
    (by simp) (by simp) (by simp) (by simp)

/-- Counterexample to C5 as stated: on the empty mapping, `_check_response`
raises `AddressFrException` with message "Invalid response from address
service.", which is not the claimed message "Invalid response from
service". -/
theorem invalid_response_counterexample :
    _check_response (PyVal.dict [])
      = CheckResult.addressFrException "Invalid response from address service."
    ∧ _check_response (PyVal.dict [])
      ≠ CheckResult.addressFrException "Invalid response from service" := by
  constructor
  · rfl
  · intro h
    have h2 := CheckResult.addressFrException.inj
      ((rfl : _check_response (PyVal.dict [])
        = CheckResult.addressFrException
            "Invalid response from address service.").symm.trans h)
    exact absurd h2 (by decide)

/-- Claim C5 (amended): for every response body that is falsy/empty or not a
mapping, `_check_response` raises `AddressFrException` with the message
"Invalid response from address service.". -/
theorem invalid_response_amended (r : PyVal)
    (h : r.truthy = false ∨ r.isDict = false) :
    _check_response r
      = CheckResult.addressFrException "Invalid response from address service." := by
  unfold _check_response
  rcases h with h | h <;> simp [h]

/-- Witness for amended C5 at the empty mapping. -/
theorem invalid_response_amended_witness : _check_response (PyVal.dict [])
    = CheckResult.addressFrException "Invalid response from address service." :=
  invalid_response_amended _ (Or.inl rfl)

/-- Claim C6: for every response body that is a non-empty mapping without the
key `features` but with the key `error`, `_check_response` raises
`AddressFrException` whose message contains the text of the error value. -/
theorem error_message_contains_error_text (es : List (String × PyVal))
    (s : String)
    (hl : lookupKey es "error" = some (PyVal.str s))
    (hnf : hasKeyL es "features" = false) :
    ∃ pre post, _check_response (PyVal.dict es)
      = CheckResult.addressFrException (pre ++ s ++ post) := by
  refine ⟨"Error in response: ", "", ?_⟩
  have hany := hasKeyL_of_lookup hl
  have hne2 : es ≠ [] := ne_nil_of_hasKeyL hany
  unfold _check_response
  simp [PyVal.truthy, PyVal.isDict, PyVal.hasKey, PyVal.getKey, hany, hl, hnf,
    List.isEmpty_eq_false.mpr hne2, PyVal.pyStr]

/-- Witness for C6 at the body from the spec. -/
theorem error_message_contains_error_text_witness : ∃ pre post,
    _check_response (PyVal.dict [("error", PyVal.str "bad query")])
      = CheckResult.addressFrException (pre ++ "bad query" ++ post) :=
  error_message_contains_error_text _ "bad query" rfl rfl

/-- Claim C7: for every response body that is a non-empty mapping containing
neither `features` nor `error`, `_check_response` raises `AddressFrException`
with a "No features found" message. -/
theorem no_features_message (es : List (String × PyVal)) (hne : es ≠ [])
    (hnf : hasKeyL es "features" = false) (hnerr : hasKeyL es "error" = false) :
    _check_response (PyVal.dict es)
      = CheckResult.addressFrException "No features found in the response." := by
  unfold _check_response
  simp [PyVal.truthy, PyVal.isDict, PyVal.hasKey, hnf, hnerr,
    List.isEmpty_eq_false.mpr hne]

/-- Witness for C7 at a one-key body with neither `features` nor `error`. -/
theorem no_features_message_witness :
    _check_response (PyVal.dict [("limit", PyVal.int 3)])
      = CheckResult.addressFrException "No features found in the response." :=
  no_features_message _ (by simp) rfl rfl

/-- Claim C8: for every input, `_check_response` either returns a value or
raises one of the two typed exceptions: the final fall-through path, which
would implicitly return `None`, is unreachable. -/
theorem no_implicit_none (r : PyVal) :
    _check_response r ≠ CheckResult.implicitNone := by
  unfold _check_response
  cases hbt : r.truthy <;> cases hbd : r.isDict <;> cases hbf : r.hasKey "features" <;>
    cases hft : (r.getKey "features").truthy <;> cases hbe : r.hasKey "error" <;>
    simp [hbt, hbd, hbf, hft, hbe]

/-- Witness for C8 at the empty mapping. -/
theorem no_implicit_none_witness :
    _check_response (PyVal.dict []) ≠ CheckResult.implicitNone :=
  no_implicit_none (PyVal.dict [])

/-- Claim C9: keyword arguments named `q` or `limit` take precedence over the
positional `query` and `limit` values in the outbound `/search` query
parameters, because the keyword map is spread after the fixed entries in the
parameter dictionary. -/
theorem kwargs_override_precedence (query : String) (limit : Int)
    (kwargs : List (String × PyVal)) (vq vl : PyVal)
    (hnd : (kwargs.map Prod.fst).Nodup) :
    (lookupKey kwargs "q" = some vq →
      lookupKey (search_request query limit kwargs).params "q" = some vq)
    ∧ (lookupKey kwargs "limit" = some vl →
      lookupKey (search_request query limit kwargs).params "limit" = some vl) := by
  have hstep : (search_request query limit kwargs).params
      = kwargs.foldl (fun a p => dictInsert a p.1 p.2)
          [("q", PyVal.str query), ("limit", PyVal.int limit)] := rfl
  constructor
  · intro h
    rw [hstep]
    exact lookup_foldl_of_nodup hnd h _
  · intro h
    rw [hstep]
    exact lookup_foldl_of_nodup hnd h _

/-- Witness for C9: kwargs carrying `q` and `limit` win over the positional
`"Paris"` and `10`. -/
theorem kwargs_override_precedence_witness :
    lookupKey (search_request "Paris" 10
      [("q", PyVal.str "override"), ("limit", PyVal.int 5)]).params "q"
      = some (PyVal.str "override")
    ∧ lookupKey (search_request "Paris" 10
      [("q", PyVal.str "override"), ("limit", PyVal.int 5)]).params "limit"
      = some (PyVal.int 5) := by
  constructor
  · exact (kwargs_override_precedence "Paris" 10
      [("q", PyVal.str "override"), ("limit", PyVal.int 5)]
      (PyVal.str "override") (PyVal.int 5) (by simp)).1 rfl
  · exact (kwargs_override_precedence "Paris" 10
      [("q", PyVal.str "override"), ("limit", PyVal.int 5)]
      (PyVal.str "override") (PyVal.int 5) (by simp)).2 rfl

/-- Claim C10: the empty-`features` test is by truthiness, not sequence
emptiness: for a mapping containing `features`, a falsy value (`None`, `0`,
`""`, `False`, `[]`) raises `AddressNotFound` and any truthy value, even a
non-sequence, is returned unchanged. -/
theorem features_truthiness (es : List (String × PyVal)) (v : PyVal)
    (hl : lookupKey es "features" = some v) :
    _check_response (PyVal.dict es) =
      (if v.truthy then CheckResult.ok v
       else CheckResult.addressNotFound "No addresses found for the given query.") := by
  have hany := hasKeyL_of_lookup hl
  have hne2 : es ≠ [] := ne_nil_of_hasKeyL hany
  have hdt : (PyVal.dict es).truthy = true := by
    simp [PyVal.truthy, List.isEmpty_eq_false.mpr hne2]
  unfold _check_response
  cases ht : v.truthy with
  | true =>
    simp [PyVal.isDict, PyVal.hasKey, PyVal.getKey, hany, hl, ht, hdt]
  | false =>
    simp [PyVal.isDict, PyVal.hasKey, PyVal.getKey, hany, hl, ht, hdt]

/-- Witness for C10: the falsy number `0` raises `AddressNotFound`; the truthy
non-sequence string `"abc"` is returned unchanged. -/
theorem features_truthiness_witness :
    _check_response (PyVal.dict [("features", PyVal.int 0)])
      = CheckResult.addressNotFound "No addresses found for the given query."
    ∧ _check_response (PyVal.dict [("features", PyVal.str "abc")])
      = CheckResult.ok (PyVal.str "abc") := by
  constructor
  · exact (features_truthiness [("features", PyVal.int 0)] (PyVal.int 0) rfl).trans
      (by simp [PyVal.truthy])
  · exact (features_truthiness [("features", PyVal.str "abc")] (PyVal.str "abc") rfl).trans
      (by simp [PyVal.truthy])
